import Mathlib

/- Shallow embedding of the job-orchestration core of the bilingual e-book
translation workshop (streamlit_app.py, processor.py and
book_maker/translator/gemini_translator.py), together with theorems settling
the specification's claims about it.  Machine state (the persisted registry,
the file system, a Python object's attribute dictionary) is passed
explicitly; Python exceptions become `Except`/`Option` values or explicit
outcome data. -/

/-- Status string a task gets at submission (streamlit_app.py, `new_task` in
`main_app`). -/
def statusQueued : String := "⌛ 排队中..."

/-- Status string set when the execution unit starts
(streamlit_app.py, `run_real_translation`). -/
def statusRunning : String := "🏃‍♂️ 翻译中..."

/-- Status string set on success (streamlit_app.py, `run_real_translation`). -/
def statusDone : String := "✅ 已完成"

/-- The failure status written by `run_real_translation`'s exception handler:
the exception text is truncated to its first 150 characters and embedded in
the status string (streamlit_app.py line 94). -/
def failedStatus (e : String) : String :=
  String.mk ("❌ 失败: ".data ++ e.data.take 150 ++ "...".data)

/-- One record of the persisted registry `tasks_db.json`
(streamlit_app.py, the `new_task` dict built in `main_app`). -/
structure TaskRecord where
  id : String
  file_name : String
  engine : String
  status : String
  progress : Rat
  created_at : Int
  result_file : Option String
  input_file : Option String
deriving DecidableEq

/-- The registry contents: a finite map from task id to record (a Python
dict, serialized as one JSON object). -/
abbrev Store := List (String × TaskRecord)

/-- Python dict lookup, also deciding `task_id in tasks`. -/
def alookup {α : Type} : List (String × α) → String → Option α
  | [], _ => Option.none
  | (k2, v) :: rest, k => if k2 = k then some v else alookup rest k

/-- Python dict assignment `tasks[task_id] = ...`: replace the entry in
place when the key is present, append otherwise. -/
def aset {α : Type} : List (String × α) → String → α → List (String × α)
  | [], k, v => [(k, v)]
  | (k2, v2) :: rest, k, v =>
      if k2 = k then (k, v) :: rest else (k2, v2) :: aset rest k v

/-- The possible states of the backing file `tasks_db.json` as observed by
`load_tasks` (streamlit_app.py lines 32-39): missing, unreadable (IOError),
invalid JSON (JSONDecodeError), or a readable stored map. -/
inductive DBFile where
  | absent
  | unreadable
  | corrupt
  | stored (tasks : Store)
deriving DecidableEq

/-- Whether the file holds a readable stored map. -/
def DBFile.isStored : DBFile → Bool
  | DBFile.stored _ => true
  | _ => false

/-- `load_tasks` (streamlit_app.py lines 32-39): returns the parsed map when
the file exists and parses; returns the empty dict when the file is missing,
and also when reading raises JSONDecodeError or IOError (the except clause
returns `{}`). -/
def load_tasks : DBFile → Store
  | DBFile.absent => []
  | DBFile.unreadable => []
  | DBFile.corrupt => []
  | DBFile.stored m => m

/-- `save_tasks` (streamlit_app.py lines 41-43): rewrites the whole file
with the given map. -/
def save_tasks (db : Store) : DBFile := DBFile.stored db

/-- The record built by the submit handler (streamlit_app.py, `new_task` in
`main_app`): status starts at Queued, progress 0, no result yet, the input
file path is the uploaded file's name. -/
def new_task (task_id file_name engine : String) (created_at : Int)
    (input_file : String) : TaskRecord :=
  { id := task_id, file_name := file_name, engine := engine,
    status := statusQueued, progress := 0, created_at := created_at,
    result_file := Option.none, input_file := some input_file }

/-- The submit-button handler's registry effect (streamlit_app.py,
`main_app`, the `st.button` branch): it unconditionally creates the job
record and saves, before the background thread is started.  No engine
validation happens here. -/
def submit_button_handler (db : Store) (task_id file_name engine : String)
    (created_at : Int) : Store :=
  aset db task_id (new_task task_id file_name engine created_at file_name)

/-- Outcome of the translation engine call made inside the execution unit:
either a produced output file path, or the text of a raised exception. -/
inductive EngineResult where
  | ok (output_file : String)
  | err (msg : String)
deriving DecidableEq

/-- The background execution unit `run_real_translation` (streamlit_app.py
lines 48-97), with the engine call abstracted by its outcome: early return
when the task is gone; otherwise mark Running and save; on success reload
and mark Completed with the result path; on any exception reload and mark
Failed with the truncated message.  The whole body is wrapped in
try/except, so the function is total: no exception escapes it. -/
def run_real_translation (task_id : String) (outcome : EngineResult)
    (db : Store) : Store :=
  match alookup db task_id with
  | Option.none => db
  | some t =>
    let db1 := aset db task_id { t with status := statusRunning }
    match outcome, alookup db1 task_id with
    | EngineResult.ok output_file, some t2 =>
        aset db1 task_id
          { t2 with status := statusDone, progress := 1,
                    result_file := some output_file }
    | EngineResult.err e, some t2 =>
        aset db1 task_id { t2 with status := failedStatus e }
    | _, Option.none => db1

/-- Modelled from the spec: the registry of provider classes
(`book_maker.translator.MODEL_DICT`) is not under src/; its key set is taken
from the engine table in streamlit_app.py's `main_app` (every non-local
engine id offered there) per §2/§4.2 of the spec. -/
def MODEL_DICT_keys : List String :=
  ["chatgptapi", "deepl", "deeplfree", "claude", "google", "gemini",
   "qwen-mt-turbo", "tencentransmart", "ollama"]

/-- The engine gate of `translate_book_processing` (processor.py lines
124-126): an engine id outside MODEL_DICT makes the call raise
`ValueError(f"不支持的翻译引擎: {engine_id}")` before any work; a known
engine proceeds with whatever the underlying translation produced. -/
def translate_book_processing_outcome (engine_id : String)
    (work : EngineResult) : EngineResult :=
  if engine_id ∈ MODEL_DICT_keys then work
  else EngineResult.err ("不支持的翻译引擎: " ++ engine_id)

/-- The keys of the `options` dict built by the submit handler
(streamlit_app.py, `main_app`): the keyword arguments that
`run_real_translation` forwards to `translate_book_processing` via
`**options`.  `status_container` is not among them. -/
def submit_option_keys : List String :=
  ["is_test", "test_num", "proxy", "prompt_config", "translate_tags",
   "direction"]

/-- The text of the TypeError Python raises when
`translate_book_processing` is called without binding its required fifth
positional parameter.  The message is generated by the interpreter, not by
the repository; it is modelled here up to the interpreter quoting of the
parameter name. -/
def missingStatusContainerMsg : String :=
  "translate_book_processing() missing 1 required positional argument: status_container"

/-- The call boundary of `translate_book_processing` as `run_real_translation`
invokes it (streamlit_app.py lines 75-81): four positional arguments
against the signature `(input_file_path, engine_id, api_key, language,
status_container, **kwargs)` (processor.py lines 66-74).  The required
parameter `status_container` is bound only when the forwarded keyword map
supplies it; otherwise Python raises TypeError at the call itself, before
the body — so the engine gate of processor.py lines 124-126 is never
reached from this call. -/
def translate_book_processing_call (engine_id : String)
    (option_keys : List String) (work : EngineResult) : EngineResult :=
  if "status_container" ∈ option_keys then
    translate_book_processing_outcome engine_id work
  else EngineResult.err missingStatusContainerMsg

/-- The execution unit as dispatched by `run_real_translation`: the local
model branch bypasses `translate_book_processing`; every other engine id
goes through the call boundary above with the submission's option keys as
the forwarded keywords. -/
def run_submitted_job (task_id engine_id : String)
    (option_keys : List String) (work : EngineResult) (db : Store) : Store :=
  if engine_id = "local_helsinki" then run_real_translation task_id work db
  else
    run_real_translation task_id
      (translate_book_processing_call engine_id option_keys work) db

/-- The canonical output path `f"{name}_bilingual{ext}"`
(processor.py line 72). -/
def canonical_output (name ext : String) : String :=
  name ++ "_bilingual" ++ ext

/-- The temporary output path `f"{name}_bilingual_temp{ext}"`
(processor.py line 172). -/
def temp_output (name ext : String) : String :=
  name ++ "_bilingual_temp" ++ ext

/-- The message of the FileNotFoundError raised when neither artifact
exists (processor.py line 177). -/
def missingArtifactMsg : String := "翻译完成，但未找到输出或临时文件！"

/-- Output reconciliation at the end of `translate_book_processing`
(processor.py lines 170-177), over a file system modelled as the list of
existing paths: return the canonical path if it exists; otherwise rename
the temporary path to the canonical one and return it; otherwise raise
FileNotFoundError. -/
def finalize_output (name ext : String) (fs : List String) :
    Except String (List String × String) :=
  if canonical_output name ext ∈ fs then
    Except.ok (fs, canonical_output name ext)
  else if temp_output name ext ∈ fs then
    Except.ok (canonical_output name ext :: fs.erase (temp_output name ext),
               canonical_output name ext)
  else Except.error missingArtifactMsg

/-- The age test of `cleanup_old_tasks` (streamlit_app.py line 107):
`(now - task_time).total_seconds() > 86400`, timestamps in seconds. -/
def is_expired (now : Int) (t : TaskRecord) : Bool :=
  decide (86400 < now - t.created_at)

/-- `os.remove` guarded by `os.path.exists` with a swallowed exception
(streamlit_app.py lines 115-120): an absent path, or no path at all,
is silently tolerated. -/
def removeIfPresent (f : Option String) (fs : List String) : List String :=
  match f with
  | Option.none => fs
  | some path => if path ∈ fs then fs.erase path else fs

/-- The ids collected into `tasks_to_delete`
(streamlit_app.py lines 101-108). -/
def expired_ids (now : Int) (db : Store) : List String :=
  (db.filter (fun p => is_expired now p.2)).map Prod.fst

/-- The per-id artifact deletion of the cleanup loop (streamlit_app.py
lines 112-120): the result file is removed first, then the input file. -/
def remove_artifacts (db : Store) (fs : List String) (tid : String) :
    List String :=
  match alookup db tid with
  | some t => removeIfPresent t.input_file (removeIfPresent t.result_file fs)
  | Option.none => fs

/-- `cleanup_old_tasks` (streamlit_app.py lines 100-126): every record
older than 86400 seconds is deleted from the registry and its artifacts
are removed from the file system; no status is consulted anywhere. -/
def cleanup_old_tasks (now : Int) (db : Store) (fs : List String) :
    Store × List String :=
  ((db.filter fun p => !(is_expired now p.2)),
   (expired_ids now db).foldl (remove_artifacts db) fs)

/-- The credential pool of one adapter instance: the credentials not yet
consumed, and the credential currently configured (the one the next API
call uses).  `rotate_key`'s except-StopIteration-pass branch (with the
source comment that an exhausted pool keeps using the last key,
gemini_translator.py lines 62-68) is the `[]` case of `rotate_key`. -/
structure KeyPool where
  remaining : List String
  current : Option String
deriving DecidableEq

/-- Modelled from the spec: the pool construction in `Base.__init__`
(book_maker/translator/base_translator.py) is not under src/; per §3
(Credential Pool) it is the ordered set of provided credentials with a
cursor that has not yet been advanced. -/
def mkPool (keys : List String) : KeyPool :=
  { remaining := keys, current := Option.none }

/-- `Gemini.rotate_key` (gemini_translator.py lines 62-68): configure the
next credential; when the iterator is exhausted the StopIteration is
swallowed and the previously configured credential stays active. -/
def rotate_key (p : KeyPool) : KeyPool :=
  match p.remaining with
  | [] => p
  | k :: rest => { remaining := rest, current := some k }

/-- The credential configured after each of `n` successive rotations. -/
def rotationTrace : KeyPool → Nat → List (Option String)
  | _, 0 => []
  | p, Nat.succ n => (rotate_key p).current :: rotationTrace (rotate_key p) n

/-- `Gemini.translate`'s handling of the provider call
(gemini_translator.py lines 77-86): on success the response text is
stripped and returned; on any exception the error is caught and the
function still returns normally, with the inline marker string
`GEMINI_API_ERROR: <detail>` in place of a translation. -/
def gemini_translate_text (resp : Except String String) : String :=
  match resp with
  | Except.ok body => body.trim
  | Except.error e => "GEMINI_API_ERROR: " ++ e

/-- Python's `a or b` on optional strings: `None` and the empty string are
falsy. -/
def pyOrStr : Option String → Option String → Option String
  | some s, b => if s = "" then b else some s
  | Option.none, b => b

/-- `Gemini.DEFAULT_PROMPT` (gemini_translator.py line 27). -/
def DEFAULT_PROMPT : String :=
  "Please help me to translate,`{text}` to {language}, please return only translated content not include the origin text"

/-- The adapter state produced by `Gemini.__init__`. -/
structure GeminiState where
  prompt : String
  pool : KeyPool
  interval : Int
deriving DecidableEq

/-- `Gemini.__init__` (gemini_translator.py lines 29-60): the prompt is
`prompt_template or environ template or DEFAULT_PROMPT` — no validation of
the template's contents whatsoever; then the first credential is consumed
and configured, raising `ValueError("Gemini API key not provided.")` only
when the pool is empty; the pacing interval defaults to 3 seconds. -/
def gemini_init (key_list : List String)
    (prompt_template env_template : Option String) :
    Except String GeminiState :=
  let prompt :=
    Option.getD (pyOrStr prompt_template (pyOrStr env_template
      (some DEFAULT_PROMPT))) DEFAULT_PROMPT
  match key_list with
  | [] => Except.error "Gemini API key not provided."
  | k :: rest =>
      Except.ok { prompt := prompt,
                  pool := { remaining := rest, current := some k },
                  interval := 3 }

/-- One step of Python `str.format` field substitution, fuelled by the
template length: a `\x7b` opens a field read up to the matching `\x7d`;
the fields `text` and `language` are substituted, any other field (or an
unterminated brace) raises, modelled as `Option.none`.  Literal characters
pass through.  (Brace escaping via doubled braces is not used by any
template in the program and is not modelled.) -/
def pyFormatAux (text language : List Char) : Nat → List Char → Option (List Char)
  | _, [] => some []
  | 0, _ :: _ => Option.none
  | Nat.succ n, c :: rest =>
    if c = '\x7b' then
      match rest.dropWhile (fun d => !(d == '\x7d')) with
      | [] => Option.none
      | _ :: rest2 =>
        if rest.takeWhile (fun d => !(d == '\x7d')) = "text".data then
          Option.map (fun tl => text ++ tl) (pyFormatAux text language n rest2)
        else if rest.takeWhile (fun d => !(d == '\x7d')) = "language".data then
          Option.map (fun tl => language ++ tl) (pyFormatAux text language n rest2)
        else Option.none
    else Option.map (fun tl => c :: tl) (pyFormatAux text language n rest)

/-- `self.prompt.format(text=text, language=self.language)`
(gemini_translator.py line 75). -/
def pyFormat (tmpl text language : String) : Option String :=
  Option.map String.mk
    (pyFormatAux text.data language.data tmpl.data.length tmpl.data)

/-- A Python value as it appears in the `**kwargs` options map. -/
inductive PyVal where
  | vstr (s : String)
  | vint (n : Int)
  | vbool (b : Bool)
  | vnone
deriving DecidableEq

/-- Python truthiness for the values above. -/
def truthy : PyVal → Bool
  | PyVal.vstr s => !(s == "")
  | PyVal.vint n => !(n == 0)
  | PyVal.vbool b => b
  | PyVal.vnone => false

/-- A live Python object observed through its attribute dictionary. -/
abbrev PyObj := List (String × PyVal)

/-- Python `hasattr`. -/
def hasattr (o : PyObj) (k : String) : Bool := (alookup o k).isSome

/-- The keys of the `loader_options` dict built by
`translate_book_processing` (processor.py lines 133-145). -/
def loader_option_keys (book_type : String) : List String :=
  [book_type ++ "_name", "model", "key", "resume", "language",
   "model_api_base", "is_test", "test_num", "prompt_config",
   "single_translate", "context_flag", "temperature", "source_lang"]

/-- The attribute-injection loop of `translate_book_processing`
(processor.py lines 163-165): for every kwargs entry whose key is not a
`loader_options` key, names an existing attribute of the live loader
object, and has a truthy value, `setattr` overwrites that attribute. -/
def inject_extra_kwargs (book_type : String) (obj : PyObj)
    (kwargs : List (String × PyVal)) : PyObj :=
  kwargs.foldl
    (fun o kv =>
      if kv.1 ∉ loader_option_keys book_type ∧ hasattr o kv.1 = true ∧
         truthy kv.2 = true
      then aset o kv.1 kv.2
      else o)
    obj

/-- Global state for the concurrency model of the registry: the persisted
file contents, and each updater thread's private snapshot obtained from
`load_tasks` (none until that thread has loaded). -/
structure RegistryWorld where
  db : Store
  snaps : List (Option Store)
deriving DecidableEq

/-- The two atomic steps a load-modify-save updater performs against the
whole-file registry (streamlit_app.py: `tasks = load_tasks()` and
`save_tasks(tasks)` around a single-entry mutation). -/
inductive ThreadAct where
  | tload (i : Nat)
  | tsave (i : Nat)
deriving DecidableEq

/-- The single-entry mutation a thread applies to its snapshot before
saving: set its own task's status (as `run_real_translation` does). -/
def status_update (snap : Store) (k newStatus : String) : Store :=
  match alookup snap k with
  | some t => aset snap k { t with status := newStatus }
  | Option.none => snap

/-- One interleaved step: a load copies the current file into the thread's
snapshot; a save writes the thread's mutated snapshot back over the whole
file, exactly as `save_tasks` does. -/
def registryStep (updates : List (String × String)) (w : RegistryWorld)
    (a : ThreadAct) : RegistryWorld :=
  match a with
  | ThreadAct.tload i => { w with snaps := w.snaps.set i (some w.db) }
  | ThreadAct.tsave i =>
    match w.snaps.get? i, updates.get? i with
    | some (some snap), some kv => { w with db := status_update snap kv.1 kv.2 }
    | _, _ => w

/-- Run a schedule of interleaved thread steps against an initial registry
file; `updates` gives each thread's own key and intended new status. -/
def registryRun (updates : List (String × String)) (init : Store)
    (sched : List ThreadAct) : Store :=
  (sched.foldl (registryStep updates)
    { db := init, snaps := List.replicate updates.length Option.none }).db

/-- Fixture: a queued task on id "a". -/
def demoTaskA : TaskRecord := new_task "a" "a.epub" "gemini" 0 "a.epub"

/-- Fixture: a queued task on id "b". -/
def demoTaskB : TaskRecord := new_task "b" "b.epub" "gemini" 0 "b.epub"

/-- Fixture: registry holding both tasks. -/
def demoInit : Store := [("a", demoTaskA), ("b", demoTaskB)]

/-- Fixture: thread 0 completes "a", thread 1 completes "b". -/
def demoUpdates : List (String × String) :=
  [("a", statusDone), ("b", statusDone)]

/-- Fixture: both threads load the same snapshot before either saves. -/
def demoSched : List ThreadAct :=
  [ThreadAct.tload 0, ThreadAct.tload 1, ThreadAct.tsave 0, ThreadAct.tsave 1]

/-- Fixture: a record still Running, created 25 hours before the sweep. -/
def demoRunningOld : TaskRecord :=
  { id := "r1", file_name := "book.epub", engine := "Gemini (API)",
    status := statusRunning, progress := 0, created_at := 0,
    result_file := Option.none, input_file := some "book.epub" }

/-- Fixture: a registry holding one queued job "j1". -/
def demoDb : Store := [("j1", new_task "j1" "book.epub" "gemini" 0 "book.epub")]

/-- Fixture: a loader object as `translate_book_processing` sees it, with
the `helper` attribute the processor itself guarantees
(processor.py lines 155-161). -/
def demoLoader : PyObj :=
  [("epub_name", PyVal.vstr "book.epub"),
   ("helper", PyVal.vstr "EPUBBookLoaderHelper"),
   ("translate_model", PyVal.vstr "Gemini")]

/-- Looking up the key just written by a dict assignment finds the new
value. -/
theorem alookup_aset_self {α : Type} (db : List (String × α)) (k : String)
    (v : α) : alookup (aset db k v) k = some v := by
  induction db with
  | nil => simp [aset, alookup]
  | cons p rest ih =>
    obtain ⟨k2, v2⟩ := p
    by_cases h : k2 = k
    · simp [aset, alookup, h]
    · simp [aset, alookup, h, ih]

/-- A dict assignment leaves every other key's binding unchanged. -/
theorem alookup_aset_ne {α : Type} (db : List (String × α)) (k k2 : String)
    (v : α) (h : k2 ≠ k) : alookup (aset db k v) k2 = alookup db k2 := by
  induction db with
  | nil => simp [aset, alookup, Ne.symm h]
  | cons p rest ih =>
    obtain ⟨k3, v3⟩ := p
    by_cases h2 : k3 = k
    · subst h2
      simp [aset, alookup, Ne.symm h]
    · simp [aset, alookup, h2, ih]

/-- Removing a possibly-absent artifact from an empty file system yields
an empty file system and no error. -/
theorem removeIfPresent_nil (f : Option String) : removeIfPresent f [] = [] := by
  cases f <;> simp [removeIfPresent]

/-- The cleanup loop over an empty file system stays on the empty file
system, whatever records it visits: every artifact is already absent and
that is tolerated. -/
theorem fold_remove_artifacts_nil (db : Store) (l : List String) :
    l.foldl (remove_artifacts db) [] = [] := by
  induction l with
  | nil => rfl
  | cons x xs ih =>
    have hstep : remove_artifacts db [] x = [] := by
      unfold remove_artifacts
      cases alookup db x with
      | none => rfl
      | some t => simp [removeIfPresent_nil]
    rw [List.foldl_cons, hstep, ih]

/-- The failure status decomposes into prefix, truncated message, and
ellipsis. -/
theorem failedStatus_length_eq (e : String) :
    (failedStatus e).length = 6 + ((e.data.take 150).length + 3) := by
  show ("❌ 失败: ".data ++ e.data.take 150 ++ "...".data).length = _
  rw [List.length_append, List.length_append]
  have h6 : ("❌ 失败: ".data).length = 6 := rfl
  have h3 : ("...".data).length = 3 := rfl
  omega

/-- The failure status never exceeds 159 characters. -/
theorem failedStatus_length_le (e : String) : (failedStatus e).length ≤ 159 := by
  have h := failedStatus_length_eq e
  have hm : (e.data.take 150).length ≤ 150 := by
    rw [List.length_take]
    exact Nat.min_le_left _ _
  omega

/-- The failure status is never the empty string. -/
theorem failedStatus_ne_empty (e : String) : failedStatus e ≠ "" := by
  intro h
  have h0 : (failedStatus e).length = 0 := by rw [h]; rfl
  have h1 := failedStatus_length_eq e
  omega

/-- Claim C1: two concurrent load-modify-save updates to the distinct ids
"a" and "b", interleaved so that both threads load before either saves —
legal for the registry code, which takes no lock around
`load_tasks`/`save_tasks` — lose thread 0's update: after both threads
complete, "a" is back to Queued while only "b" shows its update, so a
concurrent update to a disjoint key is lost. -/
theorem C1_lost_update :
    Option.map TaskRecord.status
        (alookup (registryRun demoUpdates demoInit demoSched) "a") =
      some statusQueued ∧
    Option.map TaskRecord.status
        (alookup (registryRun demoUpdates demoInit demoSched) "b") =
      some statusDone := by
  decide

/-- Claim C3: rotating a credential pool of size three four times yields
k1, k2, k3 and then k3 again — the cursor holds at the last credential —
and rotating an exhausted pool is a no-op rather than an error. -/
theorem C3_rotate_holds_on_last :
    rotationTrace (mkPool ["k1", "k2", "k3"]) 4 =
      [some "k1", some "k2", some "k3", some "k3"] ∧
    (∀ cur : Option String,
      rotate_key { remaining := [], current := cur } =
        { remaining := [], current := cur }) :=
  ⟨by decide, fun cur => rfl⟩

/-- Claim C4, counterexample: a record still Running whose `created_at` is
25 hours old is swept — it is deleted from the registry and its input
artifact is removed from the file system — refuting "never touches a
record whose status is still Running": `cleanup_old_tasks` consults no
status at all. -/
theorem C4_running_record_swept :
    demoRunningOld.status = statusRunning ∧
    (cleanup_old_tasks 90000 [("r1", demoRunningOld)] ["book.epub"]).1 = [] ∧
    (cleanup_old_tasks 90000 [("r1", demoRunningOld)] ["book.epub"]).2 = [] := by
  decide

/-- Claim C4, amended: the cleanup sweep deletes exactly the records whose
`created_at` is older than the 24-hour ttl relative to now — regardless of
status, Running included — and an empty file system (every artifact
already absent) is tolerated as success. -/
theorem C4_sweep_exactly_expired (now : Int) (db : Store)
    (fs : List String) (id : String) (t : TaskRecord) :
    ((id, t) ∈ (cleanup_old_tasks now db fs).1 ↔
      (id, t) ∈ db ∧ now - t.created_at ≤ 86400) ∧
    (cleanup_old_tasks now db []).2 = [] := by
  constructor
  · show (id, t) ∈ db.filter (fun p => !(is_expired now p.2)) ↔ _
    rw [List.mem_filter]
    simp [is_expired, not_lt]
  · exact fold_remove_artifacts_nil db _

/-- Claim C7, counterexample: at a concrete failing provider call,
`Gemini.translate` returns normally with the inline marker string rather
than failing with a provider error — the exception is caught inside
`translate` (gemini_translator.py lines 81-85). -/
theorem C7_failure_returns_marker :
    gemini_translate_text (Except.error "429 Resource has been exhausted") =
      "GEMINI_API_ERROR: 429 Resource has been exhausted" := by
  rfl

/-- Claim C7, amended: whenever the underlying provider call fails, the
adapter's translate operation returns normally with the inline error
marker `GEMINI_API_ERROR: <detail>` for that unit, and this inline-marker
policy is applied to every failure uniformly. -/
theorem C7_inline_marker_policy (e : String) :
    gemini_translate_text (Except.error e) = "GEMINI_API_ERROR: " ++ e := by
  rfl

/-- Claim C10: whenever the persisted registry file is missing, unreadable
or invalid JSON, `load_tasks` returns the empty map without raising, so
every previously persisted record is absent from the loaded snapshot; the
subsequent read-modify-write cycles built on it — the execution unit's
status updates and the cleanup sweep — silently operate on the empty map
instead of surfacing an error. -/
theorem C10_bad_file_loads_empty (f : DBFile) (id : String)
    (outcome : EngineResult) (now : Int) (fs : List String)
    (h : f.isStored = false) :
    load_tasks f = [] ∧
    alookup (load_tasks f) id = Option.none ∧
    run_real_translation id outcome (load_tasks f) = [] ∧
    cleanup_old_tasks now (load_tasks f) fs = ([], fs) := by
  cases f with
  | stored m => simp [DBFile.isStored] at h
  | absent => exact ⟨rfl, rfl, rfl, rfl⟩
  | unreadable => exact ⟨rfl, rfl, rfl, rfl⟩
  | corrupt => exact ⟨rfl, rfl, rfl, rfl⟩

/-- Running the execution unit on a present task with a failing engine call
marks exactly that task Failed with the truncated message, through the
intermediate Running write. -/
theorem run_real_translation_err (task_id e : String) (db : Store)
    (t : TaskRecord) (h : alookup db task_id = some t) :
    run_real_translation task_id (EngineResult.err e) db =
      aset (aset db task_id { t with status := statusRunning }) task_id
        { t with status := failedStatus e } := by
  simp [run_real_translation, h, alookup_aset_self]

/-- Claim C2, counterexample: submitting with `engine_id = "does-not-exist"`
does create a job record — the submit handler stores the Queued record and
saves it before the background thread ever validates the engine
(streamlit_app.py, `main_app`), refuting "no job record is created". -/
theorem C2_record_created_for_unknown_engine :
    alookup (submit_button_handler [] "job-1" "book.epub" "does-not-exist" 0)
        "job-1" =
      some (new_task "job-1" "book.epub" "does-not-exist" 0 "book.epub") := by
  decide

/-- Claim C2, amended: submitting with an unknown engine id is not rejected
synchronously; the job record is created Queued.  The unknown engine is
moreover never even inspected: the execution unit's call to
`translate_book_processing` forwards only the submission's option keys, so
the required `status_container` parameter is unbound and the call raises
TypeError at the boundary — before the engine gate — and the background
unit records that TypeError by marking the job Failed.  (The same failure
hits every non-local engine, known or not.) -/
theorem C2_unknown_engine_async (db : Store)
    (task_id file_name engine_id : String) (created_at : Int)
    (work : EngineResult) (_h1 : engine_id ∉ MODEL_DICT_keys)
    (h2 : engine_id ≠ "local_helsinki") :
    alookup (submit_button_handler db task_id file_name engine_id created_at)
        task_id =
      some (new_task task_id file_name engine_id created_at file_name) ∧
    "status_container" ∉ submit_option_keys ∧
    alookup (run_submitted_job task_id engine_id submit_option_keys work
        (submit_button_handler db task_id file_name engine_id created_at))
        task_id =
      some { new_task task_id file_name engine_id created_at file_name with
             status := failedStatus missingStatusContainerMsg } := by
  have hsub : alookup
      (submit_button_handler db task_id file_name engine_id created_at)
      task_id =
      some (new_task task_id file_name engine_id created_at file_name) := by
    simp [submit_button_handler, alookup_aset_self]
  refine ⟨hsub, by decide, ?_⟩
  have hni : "status_container" ∉ submit_option_keys := by decide
  have hcall : translate_book_processing_call engine_id submit_option_keys
      work = EngineResult.err missingStatusContainerMsg := by
    simp [translate_book_processing_call, hni]
  have hjob : run_submitted_job task_id engine_id submit_option_keys work
      (submit_button_handler db task_id file_name engine_id created_at) =
      run_real_translation task_id
        (EngineResult.err missingStatusContainerMsg)
        (submit_button_handler db task_id file_name engine_id created_at) := by
    simp [run_submitted_job, h2, hcall]
  rw [hjob, run_real_translation_err _ _ _ _ hsub, alookup_aset_self]

/-- Witness for C2's amended theorem at a concrete unknown engine. -/
theorem C2_unknown_engine_async_witness :
    ("does-not-exist" ∉ MODEL_DICT_keys) ∧
    ("does-not-exist" ≠ "local_helsinki") ∧
    (alookup (submit_button_handler [] "job-2" "book.epub" "does-not-exist" 0)
        "job-2" =
       some (new_task "job-2" "book.epub" "does-not-exist" 0 "book.epub") ∧
     "status_container" ∉ submit_option_keys ∧
     alookup (run_submitted_job "job-2" "does-not-exist" submit_option_keys
         (EngineResult.ok "out")
         (submit_button_handler [] "job-2" "book.epub" "does-not-exist" 0))
         "job-2" =
       some { new_task "job-2" "book.epub" "does-not-exist" 0 "book.epub" with
              status := failedStatus missingStatusContainerMsg }) :=
  ⟨by decide, by decide,
   C2_unknown_engine_async [] "job-2" "book.epub" "does-not-exist" 0
     (EngineResult.ok "out") (by decide) (by decide)⟩

/-- Claim C5: after the translation step reports success, the canonical
path `<stem>_bilingual<ext>` is returned when it exists; otherwise an
existing temporary path is renamed to the canonical path, which is
returned; and when neither exists, `translate_book_processing` raises the
missing-artifact FileNotFoundError, which the execution unit records by
marking the job Failed despite the apparent translation success. -/
theorem C5_output_reconciliation (name ext : String) (fs : List String)
    (db : Store) (task_id : String) (t : TaskRecord)
    (h : alookup db task_id = some t) :
    (canonical_output name ext ∈ fs →
       finalize_output name ext fs =
         Except.ok (fs, canonical_output name ext)) ∧
    (canonical_output name ext ∉ fs → temp_output name ext ∈ fs →
       finalize_output name ext fs =
         Except.ok (canonical_output name ext ::
                      fs.erase (temp_output name ext),
                    canonical_output name ext)) ∧
    (canonical_output name ext ∉ fs → temp_output name ext ∉ fs →
       finalize_output name ext fs = Except.error missingArtifactMsg ∧
       alookup (run_real_translation task_id
           (EngineResult.err missingArtifactMsg) db) task_id =
         some { t with status := failedStatus missingArtifactMsg }) := by
  refine ⟨?_, ?_, ?_⟩
  · intro hc
    simp [finalize_output, hc]
  · intro hc ht
    simp [finalize_output, hc, ht]
  · intro hc ht
    refine ⟨by simp [finalize_output, hc, ht], ?_⟩
    rw [run_real_translation_err _ _ _ _ h, alookup_aset_self]

/-- Witness for C5 on an empty file system: neither artifact exists, the
reconciler errors, and the job ends Failed. -/
theorem C5_output_reconciliation_witness :
    (alookup demoDb "j1" =
       some (new_task "j1" "book.epub" "gemini" 0 "book.epub")) ∧
    ((canonical_output "book" ".epub" ∈ ([] : List String) →
        finalize_output "book" ".epub" [] =
          Except.ok (([] : List String), canonical_output "book" ".epub")) ∧
     (canonical_output "book" ".epub" ∉ ([] : List String) →
        temp_output "book" ".epub" ∈ ([] : List String) →
        finalize_output "book" ".epub" [] =
          Except.ok (canonical_output "book" ".epub" ::
                       ([] : List String).erase (temp_output "book" ".epub"),
                     canonical_output "book" ".epub")) ∧
     (canonical_output "book" ".epub" ∉ ([] : List String) →
        temp_output "book" ".epub" ∉ ([] : List String) →
        finalize_output "book" ".epub" [] = Except.error missingArtifactMsg ∧
        alookup (run_real_translation "j1"
            (EngineResult.err missingArtifactMsg) demoDb) "j1" =
          some { new_task "j1" "book.epub" "gemini" 0 "book.epub" with
                 status := failedStatus missingArtifactMsg })) :=
  ⟨by decide,
   C5_output_reconciliation "book" ".epub" [] demoDb "j1"
     (new_task "j1" "book.epub" "gemini" 0 "book.epub") (by decide)⟩

/-- Claim C6: an exception inside the execution unit is recorded by marking
that job Failed with the truncated message — never empty, never longer
than 159 characters — while every other job's record is untouched; the
function itself is total, so nothing escapes to the caller of submit. -/
theorem C6_failure_contained (e : String) (db : Store)
    (task_id id2 : String) (t : TaskRecord)
    (h : alookup db task_id = some t) (h2 : id2 ≠ task_id) :
    alookup (run_real_translation task_id (EngineResult.err e) db) task_id =
      some { t with status := failedStatus e } ∧
    (failedStatus e).length ≤ 159 ∧
    failedStatus e ≠ "" ∧
    alookup (run_real_translation task_id (EngineResult.err e) db) id2 =
      alookup db id2 := by
  refine ⟨?_, failedStatus_length_le e, failedStatus_ne_empty e, ?_⟩
  · rw [run_real_translation_err _ _ _ _ h, alookup_aset_self]
  · rw [run_real_translation_err _ _ _ _ h,
        alookup_aset_ne _ _ _ _ h2, alookup_aset_ne _ _ _ _ h2]

/-- Witness for C6 at a concrete failing job next to an untouched one. -/
theorem C6_failure_contained_witness :
    (alookup demoDb "j1" =
       some (new_task "j1" "book.epub" "gemini" 0 "book.epub")) ∧
    ("x" ≠ "j1") ∧
    (alookup (run_real_translation "j1" (EngineResult.err "boom") demoDb)
        "j1" =
       some { new_task "j1" "book.epub" "gemini" 0 "book.epub" with
              status := failedStatus "boom" } ∧
     (failedStatus "boom").length ≤ 159 ∧
     failedStatus "boom" ≠ "" ∧
     alookup (run_real_translation "j1" (EngineResult.err "boom") demoDb)
        "x" = alookup demoDb "x") :=
  ⟨by decide, by decide,
   C6_failure_contained "boom" demoDb "j1" "x"
     (new_task "j1" "book.epub" "gemini" 0 "book.epub")
     (by decide) (by decide)⟩

/-- Claim C8, counterexample: the options key "helper" is not a recognized
loader-configuration key, yet passing it with a truthy value silently
overwrites the loader's `helper` attribute — the attribute-injection loop
splats unrecognized kwargs onto the live object. -/
theorem C8_helper_overwritten :
    inject_extra_kwargs "epub" demoLoader
        [("helper", PyVal.vstr "overwritten")] =
      [("epub_name", PyVal.vstr "book.epub"),
       ("helper", PyVal.vstr "overwritten"),
       ("translate_model", PyVal.vstr "Gemini")] ∧
    alookup (inject_extra_kwargs "epub" demoLoader
        [("helper", PyVal.vstr "overwritten")]) "helper" ≠
      alookup demoLoader "helper" := by
  decide

/-- Claim C8, amended: an option key that is not a recognized
loader-configuration key is ignored only when it does not name an existing
attribute of the loader object or its value is falsy; when it names an
existing attribute and its value is truthy, the loop overwrites that
attribute. -/
theorem C8_attr_injection (book_type : String) (obj : PyObj) (k : String)
    (v : PyVal) (hk : k ∉ loader_option_keys book_type) :
    (hasattr obj k = true → truthy v = true →
       inject_extra_kwargs book_type obj [(k, v)] = aset obj k v) ∧
    (hasattr obj k = false →
       inject_extra_kwargs book_type obj [(k, v)] = obj) ∧
    (truthy v = false →
       inject_extra_kwargs book_type obj [(k, v)] = obj) := by
  refine ⟨?_, ?_, ?_⟩
  · intro ha ht
    simp [inject_extra_kwargs, hk, ha, ht]
  · intro ha
    simp [inject_extra_kwargs, ha]
  · intro ht
    simp [inject_extra_kwargs, ht]

/-- Witness for C8's amended theorem at the demo loader. -/
theorem C8_attr_injection_witness :
    ("helper" ∉ loader_option_keys "epub") ∧
    ((hasattr demoLoader "helper" = true → truthy (PyVal.vstr "x") = true →
        inject_extra_kwargs "epub" demoLoader [("helper", PyVal.vstr "x")] =
          aset demoLoader "helper" (PyVal.vstr "x")) ∧
     (hasattr demoLoader "helper" = false →
        inject_extra_kwargs "epub" demoLoader [("helper", PyVal.vstr "x")] =
          demoLoader) ∧
     (truthy (PyVal.vstr "x") = false →
        inject_extra_kwargs "epub" demoLoader [("helper", PyVal.vstr "x")] =
          demoLoader)) :=
  ⟨by decide,
   C8_attr_injection "epub" demoLoader "helper" (PyVal.vstr "x") (by decide)⟩

/-- Claim C9, counterexample: a template missing the `\x7btext\x7d`
placeholder is accepted at configuration time — `Gemini.__init__` performs
no validation of the template at all, refuting "rejects at configuration
time any template that is missing the \x7btext\x7d placeholder". -/
theorem C9_template_not_validated :
    gemini_init ["k1"] (some "Translate the book into {language} now")
        Option.none =
      Except.ok { prompt := "Translate the book into {language} now",
                  pool := { remaining := [], current := some "k1" },
                  interval := 3 } := by
  rfl

set_option maxRecDepth 8192 in
/-- Claim C9, amended: the adapter substitutes the `\x7btext\x7d` and
`\x7blanguage\x7d` placeholders into the configured template and falls
back to the default template when none is configured, but a (non-empty)
template missing the `\x7btext\x7d` placeholder is not rejected at
configuration time — it is accepted as the prompt unchanged. -/
theorem C9_templating (k : String) (ks : List String) (tmpl : String)
    (h : tmpl ≠ "") :
    gemini_init (k :: ks) Option.none Option.none =
      Except.ok { prompt := DEFAULT_PROMPT,
                  pool := { remaining := ks, current := some k },
                  interval := 3 } ∧
    gemini_init (k :: ks) (some tmpl) Option.none =
      Except.ok { prompt := tmpl,
                  pool := { remaining := ks, current := some k },
                  interval := 3 } ∧
    pyFormat DEFAULT_PROMPT "Bonjour" "french" =
      some "Please help me to translate,`Bonjour` to french, please return only translated content not include the origin text" := by
  refine ⟨rfl, ?_, ?_⟩
  · simp [gemini_init, pyOrStr, h]
  · rfl

/-- Witness for C9's amended theorem at a concrete non-empty template. -/
theorem C9_templating_witness :
    ("hello" ≠ "") ∧
    (gemini_init ["k1"] Option.none Option.none =
       Except.ok { prompt := DEFAULT_PROMPT,
                   pool := { remaining := [], current := some "k1" },
                   interval := 3 } ∧
     gemini_init ["k1"] (some "hello") Option.none =
       Except.ok { prompt := "hello",
                   pool := { remaining := [], current := some "k1" },
                   interval := 3 } ∧
     pyFormat DEFAULT_PROMPT "Bonjour" "french" =
       some "Please help me to translate,`Bonjour` to french, please return only translated content not include the origin text") :=
  ⟨by decide, C9_templating "k1" [] "hello" (by decide)⟩

/-- Witness for C10 at the corrupt-file state. -/
theorem C10_bad_file_loads_empty_witness :
    DBFile.isStored DBFile.corrupt = false ∧
    (load_tasks DBFile.corrupt = [] ∧
     alookup (load_tasks DBFile.corrupt) "j1" = Option.none ∧
     run_real_translation "j1" (EngineResult.err "boom")
        (load_tasks DBFile.corrupt) = [] ∧
     cleanup_old_tasks 90000 (load_tasks DBFile.corrupt) ["book.epub"] =
        ([], ["book.epub"])) :=
  ⟨by decide,
   C10_bad_file_loads_empty DBFile.corrupt "j1" (EngineResult.err "boom")
     90000 ["book.epub"] (by decide)⟩
